import Mathlib

/-!
Verification of the 3dObjectViewer repository (viewer_2d.py / viewer_3d.py,
with 2d_viewer.py / 3d_viewer.py as near-duplicate variants).

Shallow embedding conventions:
* Python/NumPy floats are modelled by `PFloat`: a rational number, +inf,
  -inf, or NaN, with IEEE-style arithmetic for the operations the code
  performs (NumPy scalar division by zero yields an infinity, it does not
  raise).  Finite float values are idealised as rationals; the sign of zero
  is not tracked (it is irrelevant to every claim).
* Transcendental functions (np.cos, np.sin, np.linalg.norm's square root,
  np.arccos composed with math.degrees) are abstracted by an oracle
  `FloatOps`; the pipeline is exact rational arithmetic around the oracle,
  and every theorem quantifies over the oracle.
* A mesh file is a list of lines, each line already split on commas into
  `Field`s; a `Field` records how the textual field parses: as an integer
  literal (then both int() and float() succeed), as a non-integer float
  literal (float() succeeds, int() raises), or as neither (both raise).
  Reading past end of file returns the empty string, which splits into a
  single unparseable field, exactly as in Python.
* Exceptions are modelled with `Except` / error flags; where a claim
  depends on the partial state left behind by an exception
  (Object3D.load_from_file appends as it reads), the embedding returns the
  partial state together with the error.
-/

namespace ObjViewer

/-- Model of a Python/NumPy double: finite (idealised as a rational),
positive infinity, negative infinity, or NaN. -/
inductive PFloat where
  | fin (q : ℚ)
  | pinf
  | ninf
  | nan
deriving DecidableEq

namespace PFloat

/-- Negation of a float. -/
def neg : PFloat → PFloat
  | .fin q => .fin (-q)
  | .pinf => .ninf
  | .ninf => .pinf
  | .nan => .nan

/-- IEEE addition for the cases the viewer exercises. -/
def add : PFloat → PFloat → PFloat
  | .nan, _ => .nan
  | .fin _, .nan => .nan
  | .pinf, .nan => .nan
  | .ninf, .nan => .nan
  | .fin a, .fin b => .fin (a + b)
  | .fin _, .pinf => .pinf
  | .fin _, .ninf => .ninf
  | .pinf, .fin _ => .pinf
  | .ninf, .fin _ => .ninf
  | .pinf, .pinf => .pinf
  | .ninf, .ninf => .ninf
  | .pinf, .ninf => .nan
  | .ninf, .pinf => .nan

/-- IEEE subtraction. -/
def sub (a b : PFloat) : PFloat := add a (neg b)

/-- IEEE multiplication; 0 times an infinity is NaN. -/
def mul : PFloat → PFloat → PFloat
  | .nan, _ => .nan
  | .fin _, .nan => .nan
  | .pinf, .nan => .nan
  | .ninf, .nan => .nan
  | .fin a, .fin b => .fin (a * b)
  | .fin a, .pinf => if 0 < a then .pinf else if a < 0 then .ninf else .nan
  | .fin a, .ninf => if 0 < a then .ninf else if a < 0 then .pinf else .nan
  | .pinf, .fin b => if 0 < b then .pinf else if b < 0 then .ninf else .nan
  | .ninf, .fin b => if 0 < b then .ninf else if b < 0 then .pinf else .nan
  | .pinf, .pinf => .pinf
  | .pinf, .ninf => .ninf
  | .ninf, .pinf => .ninf
  | .ninf, .ninf => .pinf

/-- IEEE division as NumPy performs it: a nonzero finite number divided by
zero is a signed infinity (with a RuntimeWarning, not an exception), 0/0 is
NaN, and a finite number divided by an infinity is zero. -/
def div : PFloat → PFloat → PFloat
  | .nan, _ => .nan
  | .fin _, .nan => .nan
  | .pinf, .nan => .nan
  | .ninf, .nan => .nan
  | .fin a, .fin b =>
      if b = 0 then (if 0 < a then .pinf else if a < 0 then .ninf else .nan)
      else .fin (a / b)
  | .fin _, .pinf => .fin 0
  | .fin _, .ninf => .fin 0
  | .pinf, .fin b => if b < 0 then .ninf else .pinf
  | .ninf, .fin b => if b < 0 then .pinf else .ninf
  | .pinf, .pinf => .nan
  | .pinf, .ninf => .nan
  | .ninf, .pinf => .nan
  | .ninf, .ninf => .nan

/-- IEEE strict comparison; every comparison with NaN is false. -/
def lt : PFloat → PFloat → Bool
  | .nan, _ => false
  | .fin _, .nan => false
  | .pinf, .nan => false
  | .ninf, .nan => false
  | .fin a, .fin b => decide (a < b)
  | .fin _, .pinf => true
  | .fin _, .ninf => false
  | .pinf, _ => false
  | .ninf, .ninf => false
  | .ninf, _ => true

/-- Test for NaN, as math.isnan. -/
def isNan : PFloat → Bool
  | .nan => true
  | _ => false

/-- Test for a finite value. -/
def isFinite : PFloat → Bool
  | .fin _ => true
  | _ => false

end PFloat

/-- Python's built-in min of two values: the second replaces the first
exactly when it compares strictly smaller. -/
def pyMin2 (a b : PFloat) : PFloat := if PFloat.lt b a then b else a

/-- Python's built-in max of two values: the second replaces the first
exactly when it compares strictly larger. -/
def pyMax2 (a b : PFloat) : PFloat := if PFloat.lt a b then b else a

/-- Python's min over a three-element list, folding left to right with the
first element as the initial candidate. -/
def pyMin3 (a b c : PFloat) : PFloat := pyMin2 (pyMin2 a b) c

/-- Truncation toward zero, the behaviour of Python's int() on a float. -/
def pyTrunc (q : ℚ) : ℤ := if 0 ≤ q then ⌊q⌋ else ⌈q⌉

/-- Python list indexing semantics: a nonnegative index selects from the
front, a negative index with magnitude at most the length wraps around to
count from the back, and anything else raises IndexError (modelled as
none). -/
def pyIndex {α : Type} (l : List α) (i : ℤ) : Option α :=
  if 0 ≤ i then l.get? i.toNat
  else if -(l.length : ℤ) ≤ i then l.get? (i + l.length).toNat
  else none

/-- How one comma-separated textual field of the mesh file parses: an
integer literal (int() and float() both succeed), a non-integer numeric
literal (float() succeeds, int() raises ValueError), or a non-numeric
string (both raise). -/
inductive Field where
  | intF (n : ℤ)
  | floatF (q : ℚ)
  | badF
deriving DecidableEq

/-- Python's int() applied to one field. -/
def fieldToInt : Field → Option ℤ
  | .intF n => some n
  | .floatF _ => none
  | .badF => none

/-- Python's float() applied to one field. -/
def fieldToFloat : Field → Option ℚ
  | .intF n => some (n : ℚ)
  | .floatF q => some q
  | .badF => none

/-- A mesh file: the list of its lines, each already split on commas. -/
abbrev MeshFile : Type := List (List Field)

/-- Reading line i: past the end of the file, Python's readline returns
the empty string, whose strip().split on a comma is a single empty (hence
unparseable) field. -/
def readLine (file : MeshFile) (i : ℕ) : List Field :=
  (List.get? file i).getD [Field.badF]

/-- Unpacking `a, b = map(int, fields)`: succeeds exactly when there are
two fields and both parse as integers; any other shape raises. -/
def parseInts2 : List Field → Option (ℤ × ℤ)
  | [a, b] =>
      match fieldToInt a, fieldToInt b with
      | some x, some y => some (x, y)
      | _, _ => none
  | _ => none

/-- Unpacking `v1, v2, v3 = map(int, fields)`. -/
def parseInts3 : List Field → Option (ℤ × ℤ × ℤ)
  | [a, b, c] =>
      match fieldToInt a, fieldToInt b, fieldToInt c with
      | some x, some y, some z => some (x, y, z)
      | _, _, _ => none
  | _ => none

/-- Unpacking `vid, x, y, z = map(float, fields)`. -/
def parseFloats4 : List Field → Option (ℚ × ℚ × ℚ × ℚ)
  | [a, b, c, d] =>
      match fieldToFloat a, fieldToFloat b, fieldToFloat c, fieldToFloat d with
      | some w, some x, some y, some z => some (w, x, y, z)
      | _, _, _, _ => none
  | _ => none

/-- Vertex dataclass: id and 3D coordinates. -/
structure Vertex where
  id : ℤ
  x : ℚ
  y : ℚ
  z : ℚ
deriving DecidableEq

/-- Triangular face dataclass: three vertex ids. -/
structure Face where
  vertex_ids : ℤ × ℤ × ℤ
deriving DecidableEq

/-- Object3D: ordered vertices and faces. -/
structure Object3D where
  vertices : List Vertex
  faces : List Face
deriving DecidableEq

/-- Load error (Python ValueError propagating out of load_from_file). -/
inductive LoadErr where
  | parseError
deriving DecidableEq

/-- The vertex-reading loop of load_from_file: reads n lines starting at
line index i, appending each parsed Vertex to the accumulator; on the
first malformed line it stops, returning the vertices appended so far and
an error flag (the Python exception aborts the loop mid-way, leaving the
already-appended vertices in place). -/
def loadVertices (file : MeshFile) : ℕ → ℕ → List Vertex → List Vertex × Bool
  | _, 0, acc => (acc, false)
  | i, n + 1, acc =>
      match parseFloats4 (readLine file i) with
      | none => (acc, true)
      | some (vid, x, y, z) => loadVertices file (i + 1) n (acc ++ [⟨pyTrunc vid, x, y, z⟩])

/-- The face-reading loop of load_from_file, same shape as the vertex
loop. -/
def loadFaces (file : MeshFile) : ℕ → ℕ → List Face → List Face × Bool
  | _, 0, acc => (acc, false)
  | i, n + 1, acc =>
      match parseInts3 (readLine file i) with
      | none => (acc, true)
      | some t => loadFaces file (i + 1) n (acc ++ [⟨t⟩])

/-- Object3D.load_from_file: reads the header counts, then that many
vertex lines, then that many face lines, appending to the object's
existing lists.  Returns the state of the object after the call together
with the error, if one was raised; on error the object keeps everything
appended before the failing line.  A negative declared count makes the
corresponding range() empty, as in Python. -/
def Object3D.load_from_file (st : Object3D) (file : MeshFile) : Object3D × Option LoadErr :=
  match parseInts2 (readLine file 0) with
  | none => (st, some LoadErr.parseError)
  | some nvf =>
      match loadVertices file 1 nvf.1.toNat st.vertices with
      | (vs, true) => ({ st with vertices := vs }, some LoadErr.parseError)
      | (vs, false) =>
          match loadFaces file (1 + nvf.1.toNat) nvf.2.toNat st.faces with
          | (fs, true) => (⟨vs, fs⟩, some LoadErr.parseError)
          | (fs, false) => (⟨vs, fs⟩, none)

/-- Oracle for the transcendental float functions the viewer uses: np.cos,
np.sin, the square root inside np.linalg.norm, and
math.degrees(np.arccos(.)) as one composite.  Every theorem quantifies
over this oracle; the surrounding arithmetic is exact. -/
structure FloatOps where
  cos : ℚ → ℚ
  sin : ℚ → ℚ
  sqrt : ℚ → ℚ
  arccos_deg : ℚ → ℚ

/-- A 3D point (the np.array of three coordinates). -/
structure P3 where
  x : ℚ
  y : ℚ
  z : ℚ
deriving DecidableEq

/-- Vertex.vertex_to_point: the vertex coordinates as a point. -/
def Vertex.vertex_to_point (v : Vertex) : P3 := ⟨v.x, v.y, v.z⟩

/-- Division by the norm plus the 1e-10 epsilon, as in calculate_normal
and the normal re-normalisation inside render. -/
def normalizeP3 (ops : FloatOps) (n : P3) : P3 :=
  let m := ops.sqrt (n.x ^ 2 + n.y ^ 2 + n.z ^ 2) + 1 / 10 ^ 10
  ⟨n.x / m, n.y / m, n.z / m⟩

/-- Face.calculate_normal on three already-fetched vertices: the two edge
vectors, their cross product, normalised with the epsilon guard. -/
def cross_normal (ops : FloatOps) (v1 v2 v3 : Vertex) : P3 :=
  let e1 : P3 := ⟨v2.x - v1.x, v2.y - v1.y, v2.z - v1.z⟩
  let e2 : P3 := ⟨v3.x - v1.x, v3.y - v1.y, v3.z - v1.z⟩
  normalizeP3 ops ⟨e1.y * e2.z - e1.z * e2.y, e1.z * e2.x - e1.x * e2.z,
    e1.x * e2.y - e1.y * e2.x⟩

/-- Renderer3D.transform_point: the point is multiplied by the code's
rx_matrix (about the X axis) and then by its ry_matrix (about the Y
axis), written out componentwise exactly as the two matrix products
compute. -/
def transform_point (ops : FloatOps) (rotation_x rotation_y : ℚ) (p : P3) : P3 :=
  let c1 := ops.cos rotation_x
  let s1 := ops.sin rotation_x
  let p1 : P3 := ⟨p.x, c1 * p.y - s1 * p.z, s1 * p.y + c1 * p.z⟩
  let c2 := ops.cos rotation_y
  let s2 := ops.sin rotation_y
  ⟨c2 * p1.x + s2 * p1.z, p1.y, -s2 * p1.x + c2 * p1.z⟩

/-- Bounding box accumulator: the six running extrema. -/
structure BBox where
  min_x : PFloat
  max_x : PFloat
  min_y : PFloat
  max_y : PFloat
  min_z : PFloat
  max_z : PFloat
deriving DecidableEq

/-- One iteration of the bounding-box loop. -/
def bboxStep (acc : BBox) (v : Vertex) : BBox :=
  ⟨pyMin2 acc.min_x (.fin v.x), pyMax2 acc.max_x (.fin v.x),
   pyMin2 acc.min_y (.fin v.y), pyMax2 acc.max_y (.fin v.y),
   pyMin2 acc.min_z (.fin v.z), pyMax2 acc.max_z (.fin v.z)⟩

/-- BaseRenderer.calculate_bounding_box: extrema over all vertices,
starting from float plus and minus infinity. -/
def calculate_bounding_box (obj : Object3D) : BBox :=
  obj.vertices.foldl bboxStep ⟨.pinf, .ninf, .pinf, .ninf, .pinf, .ninf⟩

/-- BaseRenderer.normalize_scale: per-axis fit factors and their Python
min.  The divisions are NumPy float divisions (a zero extent yields an
infinity, not an exception, because the extents are np.float64 values). -/
def normalize_scale (canvas_width canvas_height : ℚ) (obj : Object3D)
    ( target_ratio : ℚ) (is_3d : Bool) : PFloat :=
  let bb := calculate_bounding_box obj
  let obj_width := PFloat.sub bb.max_x bb.min_x
  let obj_height := PFloat.sub bb.max_y bb.min_y
  let obj_depth := PFloat.sub bb.max_z bb.min_z
  let scale_x := PFloat.div (.fin (canvas_width * target_ratio)) obj_width
  let scale_y := PFloat.div (.fin (canvas_height * target_ratio)) obj_height
  let scale_z := PFloat.div (.fin ((canvas_width + canvas_height) * target_ratio))
    (PFloat.mul (.fin 2) obj_depth)
  if is_3d then pyMin3 scale_x scale_y scale_z else pyMin2 scale_x scale_y

/-- Renderer3D.project_point: screen coordinates plus the unprojected z
kept for depth sorting.  The screen coordinates are float arithmetic with
the (possibly infinite) scale. -/
def project_point (canvas_width canvas_height : ℚ) (scale : PFloat) (p : P3) :
    PFloat × PFloat × ℚ :=
  (PFloat.add (.fin (canvas_width / 2)) (PFloat.mul (.fin p.x) scale),
   PFloat.sub (.fin (canvas_height / 2)) (PFloat.mul (.fin p.y) scale),
   p.z)

/-- Renderer3D.calculate_color: angle between the rotated normal and the
z-axis via arccos of |normal_z| in degrees, linear intensity, and int()
truncation of the interpolated blue channel.  Returned as the (r, g, b)
triple the hex string encodes. -/
def calculate_color (ops : FloatOps) (normal_z : ℚ) : ℤ × ℤ × ℤ :=
  let angle_deg := ops.arccos_deg |normal_z|
  let intensity := 1 - angle_deg / 90
  (0, 0, pyTrunc (95 + intensity * 160))

/-- Render-time error: IndexError from vertex lookup. -/
inductive RErr where
  | indexError
deriving DecidableEq

/-- One entry of face_data: depth key, the three projected vertices, and
the fill color. -/
abbrev FaceDatum := ℚ × List (PFloat × PFloat × ℚ) × (ℤ × ℤ × ℤ)

/-- Draw commands issued to the canvas. -/
inductive DrawCmd where
  | clear
  | polygon (points : List (PFloat × PFloat)) (fill : ℤ × ℤ × ℤ)
  | oval (x y : PFloat)
deriving DecidableEq

/-- The body of the face loop in Renderer3D.render: fetch the three
vertices (Python list indexing; an out-of-range id raises IndexError),
compute the object-space normal, rotate vertices and normal, re-normalise
the rotated normal, project, take the mean rotated z as the depth key, and
compute the colour.  Face.calculate_normal repeats the same three lookups,
so both fail or succeed together. -/
def faceDatum (ops : FloatOps) (canvas_width canvas_height rotation_x rotation_y : ℚ)
    (scale : PFloat) (obj : Object3D) (face : Face) : Except RErr FaceDatum :=
  match pyIndex obj.vertices (face.vertex_ids.1 - 1),
        pyIndex obj.vertices (face.vertex_ids.2.1 - 1),
        pyIndex obj.vertices (face.vertex_ids.2.2 - 1) with
  | some a, some b, some c =>
      let normal := cross_normal ops a b c
      let t1 := transform_point ops rotation_x rotation_y a.vertex_to_point
      let t2 := transform_point ops rotation_x rotation_y b.vertex_to_point
      let t3 := transform_point ops rotation_x rotation_y c.vertex_to_point
      let tn := normalizeP3 ops (transform_point ops rotation_x rotation_y normal)
      let projected := [project_point canvas_width canvas_height scale t1,
        project_point canvas_width canvas_height scale t2,
        project_point canvas_width canvas_height scale t3]
      let center_z := (t1.z + t2.z + t3.z) / 3
      Except.ok (center_z, projected, calculate_color ops tn.z)
  | _, _, _ => Except.error RErr.indexError

/-- Effectful map over a list, stopping at the first exception (the
Python for-loop). -/
def mapE {α β ε : Type} (f : α → Except ε β) : List α → Except ε (List β)
  | [] => Except.ok []
  | a :: as =>
      match f a with
      | Except.error e => Except.error e
      | Except.ok b =>
          match mapE f as with
          | Except.error e => Except.error e
          | Except.ok bs => Except.ok (b :: bs)

/-- Stable insertion of a face datum into a list, by depth key: the new
element goes after every strictly smaller key and before the first key
that is not smaller (so before equal keys of later-inserted elements). -/
def insKey (a : FaceDatum) : List FaceDatum → List FaceDatum
  | [] => [a]
  | b :: bs => if b.1 < a.1 then b :: insKey a bs else a :: b :: bs

/-- Model of Python's list.sort(key=lambda x: x[0]): the unique stable
ascending reordering of the list. -/
def insSort : List FaceDatum → List FaceDatum
  | [] => []
  | a :: as => insKey a (insSort as)

/-- The polygon draw command for one sorted face datum: the three
projected 2D points and the computed fill colour. -/
def polyCmdOf (fd : FaceDatum) : DrawCmd :=
  DrawCmd.polygon (fd.2.1.map (fun v => (v.1, v.2.1))) fd.2.2

/-- Mutable view state of Renderer3D. -/
structure RState where
  scale : PFloat
  rotation_x : ℚ
  rotation_y : ℚ
  last_x : ℤ
  last_y : ℤ
deriving DecidableEq

/-- The vertex-marker pass at the end of Renderer3D.render: one filled
circle per vertex at its rotated and projected position, skipped exactly
when a projected coordinate is NaN (math.isnan; infinities pass the
guard). -/
def ovalCmds (ops : FloatOps) (canvas_width canvas_height : ℚ) (st : RState)
    (scale : PFloat) (obj : Object3D) : List DrawCmd :=
  obj.vertices.filterMap (fun v =>
    let p := project_point canvas_width canvas_height scale
      (transform_point ops st.rotation_x st.rotation_y v.vertex_to_point)
    if p.1.isNan = false ∧ p.2.1.isNan = false then some (DrawCmd.oval p.1 p.2.1)
    else none)

/-- Renderer3D.render: normalise the scale from the unrotated bounding
box, clear the canvas, build face_data, sort it by depth key (stable
ascending), emit the filled polygons back to front, then the vertex
markers. -/
def render (ops : FloatOps) (canvas_width canvas_height : ℚ) (st : RState)
    (obj : Object3D) : Except RErr (RState × List DrawCmd) :=
  let ns := normalize_scale canvas_width canvas_height obj (1 / 2) true
  match mapE (faceDatum ops canvas_width canvas_height st.rotation_x st.rotation_y ns obj)
      obj.faces with
  | Except.error e => Except.error e
  | Except.ok face_data =>
      let sorted := insSort face_data
      Except.ok ({ st with scale := ns },
        DrawCmd.clear :: (sorted.map polyCmdOf ++ ovalCmds ops canvas_width canvas_height st ns obj))

/-- A pointer event's integer screen coordinates. -/
structure Event where
  x : ℤ
  y : ℤ
deriving DecidableEq

/-- The state update at the top of Renderer3D.drag: deltas against the
stored last position, rotation increments of 0.01 radians per pixel, and
the new last position. -/
def dragState (st : RState) (event : Event) : RState :=
  let dx := event.x - st.last_x
  let dy := event.y - st.last_y
  { st with
    rotation_y := st.rotation_y + (dx : ℚ) * (1 / 100),
    rotation_x := st.rotation_x + (dy : ℚ) * (1 / 100),
    last_x := event.x,
    last_y := event.y }

/-- Renderer3D.drag: update the view state from the pointer deltas, then
immediately re-render the object once. -/
def drag (ops : FloatOps) (canvas_width canvas_height : ℚ) (st : RState)
    (event : Event) (obj : Object3D) : Except RErr (RState × List DrawCmd) :=
  render ops canvas_width canvas_height (dragState st event) obj

/-- Application state: the renderer's view state and the current object. -/
structure AppState where
  renderer : RState
  object : Option Object3D
deriving DecidableEq

/-- Application-level errors escaping load_file. -/
inductive AppErr where
  | loadError
  | renderError
deriving DecidableEq

/-- Application.load_file of the 3D viewer: constructs a fresh Object3D,
assigns it to self.object, then loads into it and renders.  Because the
assignment happens before load_from_file runs, a load failure leaves the
partially loaded fresh object installed as the active object.  A render
failure happens after normalize_scale has already updated the scale. -/
def app_load_file (ops : FloatOps) (canvas_width canvas_height : ℚ)
    (app : AppState) (file : MeshFile) : AppState × Option AppErr :=
  match Object3D.load_from_file ⟨[], []⟩ file with
  | (objP, some _) => ({ app with object := some objP }, some AppErr.loadError)
  | (obj, none) =>
      match render ops canvas_width canvas_height app.renderer obj with
      | Except.ok (r, _) => (⟨r, some obj⟩, none)
      | Except.error _ =>
          (⟨{ app.renderer with
                scale := normalize_scale canvas_width canvas_height obj (1 / 2) true },
            some obj⟩, some AppErr.renderError)

/-- The standard right-handed rotation matrix about the X axis, with c
and s standing for the cosine and sine of the angle.  This is also
literally the rx_matrix the code builds. -/
def rx_matrix (c s : ℚ) : Matrix (Fin 3) (Fin 3) ℚ :=
  !![1, 0, 0; 0, c, -s; 0, s, c]

/-- The standard right-handed rotation matrix about the Y axis. -/
def ry_matrix (c s : ℚ) : Matrix (Fin 3) (Fin 3) ℚ :=
  !![c, 0, s; 0, 1, 0; -s, 0, c]

/-- A point as a length-3 vector, for stating the matrix form of the
rotation. -/
def P3.toVec (p : P3) : Fin 3 → ℚ := ![p.x, p.y, p.z]

/-- Fixed trigonometric oracle used for concrete witnesses: cosine
constantly 1 and sine constantly 0 (the float values at angle 0), square
root and arccos-in-degrees constantly 0. -/
def opsId : FloatOps := ⟨fun _ => 1, fun _ => 0, fun _ => 0, fun _ => 0⟩

/-- Discriminator for polygon commands. -/
def isPolygon : DrawCmd → Bool
  | .polygon _ _ => true
  | _ => false

/-- Discriminator for oval commands. -/
def isOval : DrawCmd → Bool
  | .oval _ _ => true
  | _ => false

/-- Discriminator for the clear command. -/
def isClear : DrawCmd → Bool
  | .clear => true
  | _ => false

/-- Modelled from the spec's words for comparison with the code: the same
colour computation but with rounding to the nearest integer for the blue
channel, as the specification describes. -/
def calculate_color_round (ops : FloatOps) (normal_z : ℚ) : ℤ × ℤ × ℤ :=
  let angle_deg := ops.arccos_deg |normal_z|
  let intensity := 1 - angle_deg / 90
  (0, 0, round (95 + intensity * 160))

/-- Oracle whose arccos-in-degrees is constantly 81.225, an angle a real
normal can produce; used to separate int() truncation from rounding. -/
def ops81 : FloatOps := ⟨fun _ => 1, fun _ => 0, fun _ => 0, fun _ => 81225 / 1000⟩

/-- A mesh whose vertices coincide: every axis has zero extent. -/
def objPoint : Object3D := ⟨[⟨1, 1, 2, 3⟩], []⟩

/-- A face line of the text format: three integer fields. -/
def faceLine (t : ℤ × ℤ × ℤ) : List Field :=
  [Field.intF t.1, Field.intF t.2.1, Field.intF t.2.2]

/-- A syntactically well-formed one-vertex file whose face lines carry
arbitrary vertex ids. -/
def idFile (c : ℚ × ℚ × ℚ) (ids : List (ℤ × ℤ × ℤ)) : MeshFile :=
  [[Field.intF 1, Field.intF ids.length],
   [Field.intF 1, Field.floatF c.1, Field.floatF c.2.1, Field.floatF c.2.2]] ++
    ids.map faceLine

/-- Discriminator for a successful render, for stating that a render
raised no exception. -/
def exOk {ε α : Type} : Except ε α → Bool
  | .ok _ => true
  | .error _ => false

/-- The initial 3D view state: scale 100, zero rotations, zero last
position. -/
def st0 : RState := ⟨.fin 100, 0, 0, 0, 0⟩

/-- A one-vertex mesh away from the origin: every bounding-box extent is
zero, so the fitted scale is infinite. -/
def objOne : Object3D := ⟨[⟨1, 1, 1, 1⟩], []⟩

/-- A unit triangle in the z = 0 plane. -/
def objTri : Object3D :=
  ⟨[⟨1, 0, 0, 0⟩, ⟨2, 1, 0, 0⟩, ⟨3, 0, 1, 0⟩], [⟨(1, 2, 3)⟩]⟩

/-- The face_data the triangle produces under the opsId oracle on an
800 x 600 surface. -/
def fdsTri : List FaceDatum :=
  [(0, [(.fin 400, .fin 300, 0), (.fin 700, .fin 300, 0), (.fin 400, .fin 0, 0)],
    (0, 0, 255))]

/-- The draw stream the triangle render emits. -/
def outTri : List DrawCmd :=
  [DrawCmd.clear,
   DrawCmd.polygon [(.fin 400, .fin 300), (.fin 700, .fin 300), (.fin 400, .fin 0)]
     (0, 0, 255),
   DrawCmd.oval (.fin 400) (.fin 300),
   DrawCmd.oval (.fin 700) (.fin 300),
   DrawCmd.oval (.fin 400) (.fin 0)]

/-- The view state after rendering the triangle from st0. -/
def stTri : RState := ⟨.fin 300, 0, 0, 0, 0⟩

/-- A previously loaded mesh, used to observe what a failed load leaves
active. -/
def prevMesh : Object3D := ⟨[⟨1, 5, 5, 5⟩], []⟩

/-- An application state holding the previously loaded mesh. -/
def app0 : AppState := ⟨st0, some prevMesh⟩

/-- Scenario D: the header declares 3 vertices but only 2 vertex lines
follow. -/
def fileShort : MeshFile :=
  [[.intF 3, .intF 2],
   [.intF 1, .intF 0, .intF 0, .intF 0],
   [.intF 2, .intF 1, .intF 0, .intF 0]]

/-- A well-formed file whose single face references vertex id 0, outside
the valid range [1, 2]. -/
def fileWrap : MeshFile :=
  [[.intF 2, .intF 1],
   [.intF 1, .intF 0, .intF 0, .intF 0],
   [.intF 2, .intF 1, .intF 1, .intF 1],
   [.intF 0, .intF 1, .intF 2]]

/-- A file encoding the unit triangle objTri. -/
def fileTri : MeshFile :=
  [[.intF 3, .intF 1],
   [.intF 1, .intF 0, .intF 0, .intF 0],
   [.intF 2, .intF 1, .intF 0, .intF 0],
   [.intF 3, .intF 0, .intF 1, .intF 0],
   [.intF 1, .intF 2, .intF 3]]

/-- Scenario E: a flat mesh, all vertices sharing z = 5. -/
def objFlat : Object3D := ⟨[⟨1, 0, 0, 5⟩, ⟨2, 1, 2, 5⟩], []⟩

/-- An application state with accumulated, nonzero rotation and drag
state. -/
def app9 : AppState := ⟨⟨.fin 100, 7 / 10, 3 / 10, 42, 17⟩, some prevMesh⟩

/-- A single vertex for exercising Python negative indexing. -/
def vWit : Vertex := ⟨1, 2, 3, 4⟩

/-- A pointer-move event at (10, 5). -/
def ev0 : Event := ⟨10, 5⟩

/-- The view state after dragging from st0 to ev0 and re-rendering the
triangle. -/
def stDrag : RState := ⟨.fin 300, 1 / 20, 1 / 10, 10, 5⟩

/-- C5: transform_point applies the X-axis rotation first and the Y-axis
rotation second, and equals multiplication by the standard right-handed
rotation matrices: first as the iterated products Ry (Rx p), then as the
single composite (Ry * Rx) p, for every trigonometric oracle, every pair
of angles and every point. -/
theorem c5_rotation_matrices (ops : FloatOps) (ax ay : ℚ) (p : P3) :
    (transform_point ops ax ay p).toVec =
      (ry_matrix (ops.cos ay) (ops.sin ay)).mulVec
        ((rx_matrix (ops.cos ax) (ops.sin ax)).mulVec p.toVec) ∧
    (transform_point ops ax ay p).toVec =
      (ry_matrix (ops.cos ay) (ops.sin ay) * rx_matrix (ops.cos ax) (ops.sin ax)).mulVec
        p.toVec := by
  constructor
  · funext i
    fin_cases i <;>
      simp [transform_point, P3.toVec, rx_matrix, ry_matrix, Matrix.mulVec,
        Matrix.dotProduct, Fin.sum_univ_three, Matrix.cons_val_zero,
        Matrix.cons_val_one, Matrix.head_cons, Matrix.cons_val_two,
        Matrix.tail_cons, Matrix.head_fin_const, Matrix.vecHead, Matrix.vecTail] <;> ring
  · rw [← Matrix.mulVec_mulVec]
    funext i
    fin_cases i <;>
      simp [transform_point, P3.toVec, rx_matrix, ry_matrix, Matrix.mulVec,
        Matrix.dotProduct, Fin.sum_univ_three, Matrix.cons_val_zero,
        Matrix.cons_val_one, Matrix.head_cons, Matrix.cons_val_two,
        Matrix.tail_cons, Matrix.head_fin_const, Matrix.vecHead, Matrix.vecTail] <;> ring

/-- Membership in an insertion is membership in the inserted element or
the original list. -/
lemma mem_insKey {l : List FaceDatum} {x a : FaceDatum} (h : x ∈ insKey a l) :
    x = a ∨ x ∈ l := by
  induction l with
  | nil => simpa [insKey] using h
  | cons b bs ih =>
      by_cases hb : b.1 < a.1
      · simp only [insKey, if_pos hb, List.mem_cons] at h
        rcases h with h | h
        · exact Or.inr (by simp [h])
        · rcases ih h with h | h
          · exact Or.inl h
          · exact Or.inr (List.mem_cons_of_mem _ h)
      · simp only [insKey, if_neg hb, List.mem_cons] at h
        rcases h with h | h
        · exact Or.inl h
        · exact Or.inr (by simpa using h)

/-- Inserting into a key-sorted list keeps it key-sorted. -/
lemma pairwise_insKey {l : List FaceDatum} (a : FaceDatum)
    (h : l.Pairwise (fun p q => p.1 ≤ q.1)) :
    (insKey a l).Pairwise (fun p q => p.1 ≤ q.1) := by
  induction l with
  | nil => simp [insKey]
  | cons b bs ih =>
      rcases List.pairwise_cons.mp h with ⟨hb, hbs⟩
      by_cases hlt : b.1 < a.1
      · simp only [insKey, if_pos hlt]
        refine List.pairwise_cons.mpr ⟨?_, ih hbs⟩
        intro x hx
        rcases mem_insKey hx with rfl | hx
        · exact le_of_lt hlt
        · exact hb x hx
      · simp only [insKey, if_neg hlt]
        refine List.pairwise_cons.mpr ⟨?_, h⟩
        intro x hx
        rcases List.mem_cons.mp hx with rfl | hx
        · exact le_of_not_lt hlt
        · exact le_trans (le_of_not_lt hlt) (hb x hx)

/-- The stable sort produces a list whose depth keys ascend. -/
lemma pairwise_insSort (l : List FaceDatum) :
    (insSort l).Pairwise (fun p q => p.1 ≤ q.1) := by
  induction l with
  | nil => simp [insSort]
  | cons a as ih => exact pairwise_insKey a ih

/-- Filtering an insertion by the inserted element's own key: the
elements passed over by the insertion have strictly smaller keys, so the
inserted element heads the filtered list. -/
lemma filter_insKey_eq (k : ℚ) (a : FaceDatum) (hak : a.1 = k) :
    ∀ l : List FaceDatum, (insKey a l).filter (fun fd => decide (fd.1 = k)) =
      a :: l.filter (fun fd => decide (fd.1 = k))
  | [] => by simp [insKey, hak]
  | b :: bs => by
      by_cases hlt : b.1 < a.1
      · have hbk : ¬b.1 = k := by
          intro hbk
          rw [hak, hbk] at hlt
          exact lt_irrefl k hlt
        simp [insKey, hlt, List.filter_cons, hbk, filter_insKey_eq k a hak bs]
      · simp only [insKey]
        rw [if_neg hlt]
        simp [List.filter_cons, hak]

/-- Filtering an insertion by a key other than the inserted element's. -/
lemma filter_insKey_ne (k : ℚ) (a : FaceDatum) (hak : ¬a.1 = k) :
    ∀ l : List FaceDatum, (insKey a l).filter (fun fd => decide (fd.1 = k)) =
      l.filter (fun fd => decide (fd.1 = k))
  | [] => by simp [insKey, hak]
  | b :: bs => by
      by_cases hlt : b.1 < a.1
      · simp [insKey, hlt, List.filter_cons, filter_insKey_ne k a hak bs]
      · simp [insKey, hlt, List.filter_cons, hak]

/-- Stability of the sort: for every key value, the faces carrying that
exact key appear in the sorted list in their original order. -/
lemma filter_insSort (k : ℚ) (l : List FaceDatum) :
    (insSort l).filter (fun fd => decide (fd.1 = k)) =
      l.filter (fun fd => decide (fd.1 = k)) := by
  induction l with
  | nil => simp [insSort]
  | cons a as ih =>
      by_cases hak : a.1 = k
      · rw [insSort, filter_insKey_eq k a hak, ih, List.filter_cons]
        simp [hak]
      · rw [insSort, filter_insKey_ne k a hak, ih, List.filter_cons]
        simp [hak]

/-- A successful effectful map relates input and output pointwise. -/
lemma mapE_ok_forall₂ {α β ε : Type} {f : α → Except ε β} :
    ∀ {l : List α} {l' : List β}, mapE f l = Except.ok l' →
      List.Forall₂ (fun a b => f a = Except.ok b) l l'
  | [], l', h => by
      simp only [mapE] at h
      cases h
      exact List.Forall₂.nil
  | a :: as, l', h => by
      simp only [mapE] at h
      cases hfa : f a with
      | error e => rw [hfa] at h; cases h
      | ok b =>
          rw [hfa] at h
          cases hrest : mapE f as with
          | error e => rw [hrest] at h; cases h
          | ok bs =>
              rw [hrest] at h
              cases h
              exact List.Forall₂.cons hfa (mapE_ok_forall₂ hrest)

/-- A successful render returns the input view state with only the scale
replaced by the recomputed fit, and the draw stream it emits: a clear,
then the sorted polygons, then the vertex markers. -/
lemma render_ok {ops : FloatOps} {w h : ℚ} {st st' : RState} {obj : Object3D}
    {out : List DrawCmd} (hr : render ops w h st obj = Except.ok (st', out)) :
    ∃ fds, mapE (faceDatum ops w h st.rotation_x st.rotation_y
        (normalize_scale w h obj (1 / 2) true) obj) obj.faces = Except.ok fds ∧
      st' = { st with scale := normalize_scale w h obj (1 / 2) true } ∧
      out = DrawCmd.clear :: ((insSort fds).map polyCmdOf ++
        ovalCmds ops w h st (normalize_scale w h obj (1 / 2) true) obj) := by
  simp only [render] at hr
  cases hm : mapE (faceDatum ops w h st.rotation_x st.rotation_y
      (normalize_scale w h obj (1 / 2) true) obj) obj.faces with
  | error e => rw [hm] at hr; cases hr
  | ok fds =>
      rw [hm] at hr
      simp only [Except.ok.injEq, Prod.mk.injEq] at hr
      exact ⟨fds, rfl, hr.1.symm, hr.2.symm⟩

/-- Mapping face data to polygon commands is transparent to the polygon
filter. -/
lemma filter_isPolygon_map (l : List FaceDatum) :
    (l.map polyCmdOf).filter isPolygon = l.map polyCmdOf := by
  induction l with
  | nil => simp
  | cons a as ih => simp [polyCmdOf, List.filter_cons, isPolygon, ih]

/-- Vertex markers contain no polygon command. -/
lemma filter_isPolygon_ovals (ops : FloatOps) (w h : ℚ) (st : RState)
    (ns : PFloat) (obj : Object3D) :
    (ovalCmds ops w h st ns obj).filter isPolygon = [] := by
  rw [List.filter_eq_nil_iff]
  intro c hc
  rcases List.mem_filterMap.mp hc with ⟨v, _, hv⟩
  by_cases hnan : ((project_point w h ns (transform_point ops st.rotation_x
      st.rotation_y v.vertex_to_point)).1.isNan = false ∧
      (project_point w h ns (transform_point ops st.rotation_x
      st.rotation_y v.vertex_to_point)).2.1.isNan = false)
  · simp only [if_pos hnan, Option.some.injEq] at hv
    rw [← hv]
    simp [isPolygon]
  · simp [if_neg hnan] at hv

/-- C4: painter's algorithm.  For a 3D render with a fixed rotation that
succeeds (face_data computed as fds): every face's depth key is the mean
z of its three rotated, unprojected vertices; the sorted list ascends by
depth key; the sort is stable (faces of each exact key value keep their
original order); and the filled-polygon commands of the output stream are
exactly the sorted face data in sorted order. -/
theorem c4_depth_sort (ops : FloatOps) (w h : ℚ) (st st' : RState) (obj : Object3D)
    (fds : List FaceDatum) (out : List DrawCmd)
    (hf : mapE (faceDatum ops w h st.rotation_x st.rotation_y
      (normalize_scale w h obj (1 / 2) true) obj) obj.faces = Except.ok fds)
    (hr : render ops w h st obj = Except.ok (st', out)) :
    List.Forall₂ (fun (face : Face) (fd : FaceDatum) =>
      ∀ a b c : Vertex,
        pyIndex obj.vertices (face.vertex_ids.1 - 1) = some a →
        pyIndex obj.vertices (face.vertex_ids.2.1 - 1) = some b →
        pyIndex obj.vertices (face.vertex_ids.2.2 - 1) = some c →
        fd.1 = ((transform_point ops st.rotation_x st.rotation_y a.vertex_to_point).z +
          (transform_point ops st.rotation_x st.rotation_y b.vertex_to_point).z +
          (transform_point ops st.rotation_x st.rotation_y c.vertex_to_point).z) / 3)
      obj.faces fds ∧
    (insSort fds).Pairwise (fun p q => p.1 ≤ q.1) ∧
    (∀ k : ℚ, (insSort fds).filter (fun fd => decide (fd.1 = k)) =
      fds.filter (fun fd => decide (fd.1 = k))) ∧
    out.filter isPolygon = (insSort fds).map polyCmdOf := by
  refine ⟨?_, pairwise_insSort fds, fun k => filter_insSort k fds, ?_⟩
  · refine (mapE_ok_forall₂ hf).imp ?_
    intro face fd hfd a b c ha hb hc
    rw [faceDatum, ha, hb, hc] at hfd
    cases hfd
    rfl
  · rcases render_ok hr with ⟨fds2, hf2, _, hout⟩
    rw [hf] at hf2
    cases hf2
    rw [hout, List.filter_cons_of_neg (by simp [isPolygon]), List.filter_append,
      filter_isPolygon_map, filter_isPolygon_ovals, List.append_nil]

/-- Polygon commands contain no clear. -/
lemma countP_isClear_map (l : List FaceDatum) :
    (l.map polyCmdOf).countP isClear = 0 := by
  rw [List.countP_eq_zero]
  intro c hc
  rcases List.mem_map.mp hc with ⟨fd, _, hfd⟩
  rw [← hfd]
  simp [polyCmdOf, isClear]

/-- Vertex markers contain no clear. -/
lemma countP_isClear_ovals (ops : FloatOps) (w h : ℚ) (st : RState)
    (ns : PFloat) (obj : Object3D) :
    (ovalCmds ops w h st ns obj).countP isClear = 0 := by
  rw [List.countP_eq_zero]
  intro c hc
  rcases List.mem_filterMap.mp hc with ⟨v, _, hv⟩
  by_cases hnan : ((project_point w h ns (transform_point ops st.rotation_x
      st.rotation_y v.vertex_to_point)).1.isNan = false ∧
      (project_point w h ns (transform_point ops st.rotation_x
      st.rotation_y v.vertex_to_point)).2.1.isNan = false)
  · simp only [if_pos hnan, Option.some.injEq] at hv
    rw [← hv]
    simp [isClear]
  · simp [if_neg hnan] at hv

/-- C7: each pointer-move while dragging adds dx times 0.01 to
rotation_y and dy times 0.01 to rotation_x (deltas against the stored
last position), stores the event position as the new last position, and
performs exactly one synchronous re-render of the current object (the
emitted stream is one render of the updated state and contains exactly
one canvas clear). -/
theorem c7_drag_update (ops : FloatOps) (w h : ℚ) (st st' : RState) (event : Event)
    (obj : Object3D) (out : List DrawCmd)
    (hd : drag ops w h st event obj = Except.ok (st', out)) :
    st'.rotation_y = st.rotation_y + ((event.x - st.last_x : ℤ) : ℚ) * (1 / 100) ∧
    st'.rotation_x = st.rotation_x + ((event.y - st.last_y : ℤ) : ℚ) * (1 / 100) ∧
    st'.last_x = event.x ∧
    st'.last_y = event.y ∧
    render ops w h (dragState st event) obj = Except.ok (st', out) ∧
    out.countP isClear = 1 := by
  have hrender : render ops w h (dragState st event) obj = Except.ok (st', out) := hd
  rcases render_ok hrender with ⟨fds, _, hst, hout⟩
  refine ⟨?_, ?_, ?_, ?_, hrender, ?_⟩
  · rw [hst]; simp [dragState]
  · rw [hst]; simp [dragState]
  · rw [hst]; simp [dragState]
  · rw [hst]; simp [dragState]
  · rw [hout, List.countP_cons_of_pos _ _ (by simp [isClear]), List.countP_append,
      countP_isClear_map, countP_isClear_ovals]

/-- The vertex loop only appends: running it from any accumulator yields
the accumulator followed by what it produces from the empty accumulator,
with the same error outcome. -/
lemma loadVertices_append (file : MeshFile) :
    ∀ (n i : ℕ) (acc : List Vertex),
      loadVertices file i n acc =
        (acc ++ (loadVertices file i n []).1, (loadVertices file i n []).2)
  | 0, i, acc => by simp [loadVertices]
  | n + 1, i, acc => by
      cases hp : parseFloats4 (readLine file i) with
      | none => simp [loadVertices, hp]
      | some q =>
          obtain ⟨vid, x, y, z⟩ := q
          simp only [loadVertices, hp]
          have h1 := loadVertices_append file n (i + 1) (acc ++ [⟨pyTrunc vid, x, y, z⟩])
          have h2 := loadVertices_append file n (i + 1) [⟨pyTrunc vid, x, y, z⟩]
          rw [List.nil_append, h1, h2]
          simp

/-- The face loop only appends. -/
lemma loadFaces_append (file : MeshFile) :
    ∀ (n i : ℕ) (acc : List Face),
      loadFaces file i n acc =
        (acc ++ (loadFaces file i n []).1, (loadFaces file i n []).2)
  | 0, i, acc => by simp [loadFaces]
  | n + 1, i, acc => by
      cases hp : parseInts3 (readLine file i) with
      | none => simp [loadFaces, hp]
      | some t =>
          simp only [loadFaces, hp]
          have h1 := loadFaces_append file n (i + 1) (acc ++ [⟨t⟩])
          have h2 := loadFaces_append file n (i + 1) [⟨t⟩]
          rw [List.nil_append, h1, h2]
          simp

/-- load_from_file from any starting object equals the starting lists
followed by what a fresh load of the same file produces, with the same
error outcome; this holds on failures too, since parsing never inspects
the accumulated state. -/
lemma load_from_file_append (st : Object3D) (file : MeshFile) :
    (Object3D.load_from_file st file).1.vertices =
      st.vertices ++ (Object3D.load_from_file ⟨[], []⟩ file).1.vertices ∧
    (Object3D.load_from_file st file).1.faces =
      st.faces ++ (Object3D.load_from_file ⟨[], []⟩ file).1.faces ∧
    (Object3D.load_from_file st file).2 =
      (Object3D.load_from_file ⟨[], []⟩ file).2 := by
  rcases hp : parseInts2 (readLine file 0) with _ | ⟨nv, nf⟩
  · simp [Object3D.load_from_file, hp]
  · rcases hX : loadVertices file 1 nv.toNat [] with ⟨vs1, b1⟩
    have hX2 := loadVertices_append file nv.toNat 1 st.vertices
    rw [hX] at hX2
    cases b1 with
    | true => simp [Object3D.load_from_file, hp, hX, hX2]
    | false =>
        rcases hY : loadFaces file (1 + nv.toNat) nf.toNat [] with ⟨fs1, b2⟩
        have hY2 := loadFaces_append file nf.toNat (1 + nv.toNat) st.faces
        rw [hY] at hY2
        cases b2 with
        | true => simp [Object3D.load_from_file, hp, hX, hX2, hY, hY2]
        | false => simp [Object3D.load_from_file, hp, hX, hX2, hY, hY2]

/-- Whatever happens after the fresh Object3D is constructed,
Application.load_file leaves that fresh object (with whatever the load
put into it) installed as the active object. -/
lemma app_load_object (ops : FloatOps) (w hgt : ℚ) (app : AppState) (file : MeshFile) :
    (app_load_file ops w hgt app file).1.object =
      some (Object3D.load_from_file ⟨[], []⟩ file).1 := by
  unfold app_load_file
  rcases hL : Object3D.load_from_file ⟨[], []⟩ file with ⟨obj0, e0⟩
  cases e0 with
  | none =>
      cases hR : render ops w hgt app.renderer obj0 with
      | ok pr =>
          rcases pr with ⟨r, cmds⟩
          simp [hR]
      | error e => simp [hR]
  | some e => simp

/-- C10: load_from_file appends the newly parsed vertices and faces to
the object's existing lists rather than replacing them; a whole-mesh
replacement only happens because Application.load_file constructs a new
Object3D for each load, which then becomes the active object. -/
theorem c10_load_accumulates (st : Object3D) (file : MeshFile)
    (h : (Object3D.load_from_file st file).2 = none) :
    (Object3D.load_from_file st file).1.vertices =
      st.vertices ++ (Object3D.load_from_file ⟨[], []⟩ file).1.vertices ∧
    (Object3D.load_from_file st file).1.faces =
      st.faces ++ (Object3D.load_from_file ⟨[], []⟩ file).1.faces ∧
    ∀ (ops : FloatOps) (w hgt : ℚ) (app : AppState),
      (app_load_file ops w hgt app file).1.object =
        some (Object3D.load_from_file ⟨[], []⟩ file).1 :=
  ⟨(load_from_file_append st file).1, (load_from_file_append st file).2.1,
    fun ops w hgt app => app_load_object ops w hgt app file⟩

/-- C1 (amended): when opening a file fails with a load error, the error
is surfaced synchronously, but the previously loaded Mesh does not remain
active: the partially loaded fresh Object3D (holding whatever parsed
before the failure) is installed as the active object. -/
theorem c1_failed_load_installs_partial (ops : FloatOps) (w hgt : ℚ)
    (app : AppState) (file : MeshFile)
    (he : (app_load_file ops w hgt app file).2 = some AppErr.loadError) :
    (app_load_file ops w hgt app file).1.object =
      some (Object3D.load_from_file ⟨[], []⟩ file).1 ∧
    (Object3D.load_from_file ⟨[], []⟩ file).2.isSome = true := by
  refine ⟨app_load_object ops w hgt app file, ?_⟩
  unfold app_load_file at he
  rcases hL : Object3D.load_from_file ⟨[], []⟩ file with ⟨obj0, e0⟩
  rw [hL] at he
  cases e0 with
  | none =>
      cases hR : render ops w hgt app.renderer obj0 with
      | ok pr =>
          rcases pr with ⟨r, cmds⟩
          simp [hR] at he
      | error e =>
          simp [hR] at he
  | some e => simp

/-- C9: loading a new mesh recomputes the scale (through the render that
follows the load) but does not reset the accumulated rotation angles or
the stored last pointer position. -/
theorem c9_load_keeps_rotation (ops : FloatOps) (w hgt : ℚ) (app : AppState)
    (file : MeshFile) (obj' : Object3D)
    (hl : Object3D.load_from_file ⟨[], []⟩ file = (obj', none)) :
    (app_load_file ops w hgt app file).1.renderer.rotation_x =
      app.renderer.rotation_x ∧
    (app_load_file ops w hgt app file).1.renderer.rotation_y =
      app.renderer.rotation_y ∧
    (app_load_file ops w hgt app file).1.renderer.last_x = app.renderer.last_x ∧
    (app_load_file ops w hgt app file).1.renderer.last_y = app.renderer.last_y ∧
    (app_load_file ops w hgt app file).1.renderer.scale =
      normalize_scale w hgt obj' (1 / 2) true ∧
    (app_load_file ops w hgt app file).1.object = some obj' := by
  unfold app_load_file
  rw [hl]
  cases hR : render ops w hgt app.renderer obj' with
  | ok pr =>
      rcases pr with ⟨r, cmds⟩
      rcases render_ok hR with ⟨fds, _, hst, _⟩
      simp [hR, hst]
  | error e => simp [hR]

/-- C6 (amended): the blue channel is the int() truncation (equivalently
the floor, the value being nonnegative) of 95 + intensity * 160, not its
rounding; red and green are 0; a face directly facing the camera (angle
0, intensity 1) gets blue 255 and an edge-on face (angle 90, intensity 0)
gets blue 95. -/
theorem c6_color_truncates (ops : FloatOps) (nz : ℚ)
    (h0 : 0 ≤ ops.arccos_deg |nz|) (h90 : ops.arccos_deg |nz| ≤ 90) :
    calculate_color ops nz =
      (0, 0, ⌊95 + (1 - ops.arccos_deg |nz| / 90) * 160⌋) ∧
    (ops.arccos_deg |nz| = 0 → calculate_color ops nz = (0, 0, 255)) ∧
    (ops.arccos_deg |nz| = 90 → calculate_color ops nz = (0, 0, 95)) := by
  have hv : (0 : ℚ) ≤ 95 + (1 - ops.arccos_deg |nz| / 90) * 160 := by linarith
  refine ⟨?_, ?_, ?_⟩
  · simp only [calculate_color, pyTrunc, if_pos hv]
  · intro ha
    simp only [calculate_color, pyTrunc, ha]
    norm_num
  · intro ha
    simp only [calculate_color, pyTrunc, ha]
    norm_num

/-- C6 counterexample: at an angle of 81.225 degrees the interpolated
blue value is 110.6; the code's int() yields 110 while the claimed
round(...) yields 111, and the angle lies in the valid range. -/
theorem c6_counterexample :
    calculate_color ops81 0 = (0, 0, 110) ∧
    calculate_color_round ops81 0 = (0, 0, 111) ∧
    (0 : ℚ) ≤ ops81.arccos_deg |(0 : ℚ)| ∧ ops81.arccos_deg |(0 : ℚ)| ≤ 90 := by
  refine ⟨?_, ?_, by norm_num [ops81], by norm_num [ops81]⟩
  · simp only [calculate_color, ops81, pyTrunc]
    norm_num
  · simp only [calculate_color_round, ops81]
    rw [round_eq]
    norm_num

/-- Finite floats are exactly the fin constructor. -/
lemma isFinite_iff {a : PFloat} : a.isFinite = true ↔ ∃ q, a = .fin q := by
  cases a <;> simp [PFloat.isFinite]

/-- Python min of two finite floats is the rational min. -/
lemma pyMin2_fin (a q : ℚ) : pyMin2 (.fin a) (.fin q) = .fin (min a q) := by
  rcases lt_or_le q a with h | h
  · simp [pyMin2, PFloat.lt, h, min_eq_right (le_of_lt h)]
  · simp [pyMin2, PFloat.lt, not_lt.mpr h, min_eq_left h]

/-- Python max of two finite floats is the rational max. -/
lemma pyMax2_fin (a q : ℚ) : pyMax2 (.fin a) (.fin q) = .fin (max a q) := by
  rcases lt_or_le a q with h | h
  · simp [pyMax2, PFloat.lt, h, max_eq_right (le_of_lt h)]
  · simp [pyMax2, PFloat.lt, not_lt.mpr h, max_eq_left h]

/-- Subtraction of finite floats. -/
lemma sub_fin (a b : ℚ) : PFloat.sub (.fin a) (.fin b) = .fin (a - b) := by
  simp [PFloat.sub, PFloat.add, PFloat.neg, sub_eq_add_neg]

/-- Multiplication of finite floats. -/
lemma mul_fin (a b : ℚ) : PFloat.mul (.fin a) (.fin b) = .fin (a * b) := rfl

/-- Dividing a positive finite numerator by a nonzero finite denominator
is finite. -/
lemma div_pos_finite {n e : ℚ} (he : e ≠ 0) :
    (PFloat.div (.fin n) (.fin e)).isFinite = true := by
  simp [PFloat.div, he, PFloat.isFinite]

/-- Dividing a positive finite numerator by any finite denominator gives
a finite value or positive infinity (the zero-denominator case). -/
lemma div_pos_cases {n : ℚ} (e : ℚ) (hn : 0 < n) :
    (PFloat.div (.fin n) (.fin e)).isFinite = true ∨
      PFloat.div (.fin n) (.fin e) = .pinf := by
  by_cases h0 : e = 0
  · right
    simp [PFloat.div, h0, hn]
  · left
    exact div_pos_finite h0

/-- Python min of a finite value with a finite-or-infinite value is
finite. -/
lemma pyMin2_finite_left {a b : PFloat} (ha : a.isFinite = true)
    (hb : b.isFinite = true ∨ b = .pinf) : (pyMin2 a b).isFinite = true := by
  obtain ⟨qa, rfl⟩ := isFinite_iff.mp ha
  rcases hb with hb | rfl
  · obtain ⟨qb, rfl⟩ := isFinite_iff.mp hb
    rw [pyMin2_fin]
    simp [PFloat.isFinite]
  · simp [pyMin2, PFloat.lt, PFloat.isFinite]

/-- Symmetric version: min with a finite second argument is finite. -/
lemma pyMin2_finite_right {a b : PFloat} (ha : a.isFinite = true ∨ a = .pinf)
    (hb : b.isFinite = true) : (pyMin2 a b).isFinite = true := by
  obtain ⟨qb, rfl⟩ := isFinite_iff.mp hb
  rcases ha with ha | rfl
  · obtain ⟨qa, rfl⟩ := isFinite_iff.mp ha
    rw [pyMin2_fin]
    simp [PFloat.isFinite]
  · simp [pyMin2, PFloat.lt, PFloat.isFinite]

/-- Python min of finite-or-plus-infinite values stays in that class. -/
lemma pyMin2_pf {a b : PFloat} (ha : a.isFinite = true ∨ a = .pinf)
    (hb : b.isFinite = true ∨ b = .pinf) :
    (pyMin2 a b).isFinite = true ∨ pyMin2 a b = .pinf := by
  rcases hb with hb | rfl
  · exact Or.inl (pyMin2_finite_right ha hb)
  · rcases ha with ha | rfl
    · obtain ⟨qa, rfl⟩ := isFinite_iff.mp ha
      left
      simp [pyMin2, PFloat.lt, PFloat.isFinite]
    · right
      simp [pyMin2, PFloat.lt]

/-- Python min over three factors each finite or plus infinity, at least
one finite, is finite: an infinite per-axis factor can never win the
minimum. -/
lemma pyMin3_finite {a b c : PFloat}
    (ha : a.isFinite = true ∨ a = .pinf) (hb : b.isFinite = true ∨ b = .pinf)
    (hc : c.isFinite = true ∨ c = .pinf)
    (hone : a.isFinite = true ∨ b.isFinite = true ∨ c.isFinite = true) :
    (pyMin3 a b c).isFinite = true := by
  rcases hone with h1 | h1 | h1
  · exact pyMin2_finite_left (pyMin2_finite_left h1 hb) hc
  · exact pyMin2_finite_left (pyMin2_finite_right ha h1) hc
  · exact pyMin2_finite_right (pyMin2_pf ha hb) h1

/-- Folding min over a list never exceeds the initial candidate. -/
lemma foldl_min_le_init (f : Vertex → ℚ) :
    ∀ (l : List Vertex) (a : ℚ), l.foldl (fun m v => min m (f v)) a ≤ a
  | [], a => le_refl a
  | v :: vs, a =>
      le_trans (foldl_min_le_init f vs (min a (f v))) (min_le_left _ _)

/-- Folding min over a list never exceeds any member's value. -/
lemma foldl_min_le_mem (f : Vertex → ℚ) :
    ∀ {l : List Vertex} (a : ℚ) {u : Vertex}, u ∈ l →
      l.foldl (fun m v => min m (f v)) a ≤ f u := by
  intro l
  induction l with
  | nil => intro a u hu; cases hu
  | cons v vs ih =>
      intro a u hu
      rcases List.mem_cons.mp hu with rfl | hu
      · exact le_trans (foldl_min_le_init f vs (min a (f u))) (min_le_right _ _)
      · exact ih (min a (f v)) hu

/-- Folding max over a list is at least the initial candidate. -/
lemma foldl_max_ge_init (f : Vertex → ℚ) :
    ∀ (l : List Vertex) (a : ℚ), a ≤ l.foldl (fun m v => max m (f v)) a
  | [], a => le_refl a
  | v :: vs, a =>
      le_trans (le_max_left _ _) (foldl_max_ge_init f vs (max a (f v)))

/-- Folding max over a list is at least any member's value. -/
lemma foldl_max_ge_mem (f : Vertex → ℚ) :
    ∀ {l : List Vertex} (a : ℚ) {u : Vertex}, u ∈ l →
      f u ≤ l.foldl (fun m v => max m (f v)) a := by
  intro l
  induction l with
  | nil => intro a u hu; cases hu
  | cons v vs ih =>
      intro a u hu
      rcases List.mem_cons.mp hu with rfl | hu
      · exact le_trans (le_max_right _ _) (foldl_max_ge_init f vs (max a (f u)))
      · exact ih (max a (f v)) hu

/-- The min fold from the head bounds every member of the list. -/
lemma fold_min_le (f : Vertex → ℚ) {v0 : Vertex} {rest : List Vertex} {u : Vertex}
    (hu : u ∈ v0 :: rest) :
    rest.foldl (fun m v => min m (f v)) (f v0) ≤ f u := by
  rcases List.mem_cons.mp hu with rfl | hu
  · exact foldl_min_le_init f rest (f u)
  · exact foldl_min_le_mem f (f v0) hu

/-- The max fold from the head bounds every member of the list. -/
lemma fold_le_max (f : Vertex → ℚ) {v0 : Vertex} {rest : List Vertex} {u : Vertex}
    (hu : u ∈ v0 :: rest) :
    f u ≤ rest.foldl (fun m v => max m (f v)) (f v0) := by
  rcases List.mem_cons.mp hu with rfl | hu
  · exact foldl_max_ge_init f rest (f u)
  · exact foldl_max_ge_mem f (f v0) hu

/-- The first bounding-box iteration turns the infinite seeds into the
first vertex's coordinates. -/
lemma bboxStep_init (v : Vertex) :
    bboxStep ⟨.pinf, .ninf, .pinf, .ninf, .pinf, .ninf⟩ v =
      ⟨.fin v.x, .fin v.x, .fin v.y, .fin v.y, .fin v.z, .fin v.z⟩ := rfl

/-- One bounding-box iteration on finite accumulators is the rational
min/max on each component. -/
lemma bboxStep_fin (a b c d e f : ℚ) (v : Vertex) :
    bboxStep ⟨.fin a, .fin b, .fin c, .fin d, .fin e, .fin f⟩ v =
      ⟨.fin (min a v.x), .fin (max b v.x), .fin (min c v.y),
       .fin (max d v.y), .fin (min e v.z), .fin (max f v.z)⟩ := by
  simp [bboxStep, pyMin2_fin, pyMax2_fin]

/-- The bounding-box fold with finite accumulators computes the six
rational folds. -/
lemma bbox_fold_fin :
    ∀ (vs : List Vertex) (a b c d e f : ℚ),
      vs.foldl bboxStep ⟨.fin a, .fin b, .fin c, .fin d, .fin e, .fin f⟩ =
        ⟨.fin (vs.foldl (fun m v => min m v.x) a),
         .fin (vs.foldl (fun m v => max m v.x) b),
         .fin (vs.foldl (fun m v => min m v.y) c),
         .fin (vs.foldl (fun m v => max m v.y) d),
         .fin (vs.foldl (fun m v => min m v.z) e),
         .fin (vs.foldl (fun m v => max m v.z) f)⟩
  | [], a, b, c, d, e, f => rfl
  | v :: vs, a, b, c, d, e, f => by
      rw [List.foldl_cons, bboxStep_fin, bbox_fold_fin vs]
      rfl

/-- C2 (amended): a zero-extent axis makes the corresponding per-axis
factor positive infinity (NumPy float division), which can never win the
Python minimum; with positive surface dimensions and target ratio, the
3D scale fit is finite whenever at least one axis of the mesh has two
distinct coordinate values. -/
theorem c2_scale_fit_finite (w hgt tr : ℚ) (obj : Object3D)
    (hw : 0 < w) (hh : 0 < hgt) (htr : 0 < tr)
    (hax : (∃ u ∈ obj.vertices, ∃ u' ∈ obj.vertices, u.x ≠ u'.x) ∨
           (∃ u ∈ obj.vertices, ∃ u' ∈ obj.vertices, u.y ≠ u'.y) ∨
           (∃ u ∈ obj.vertices, ∃ u' ∈ obj.vertices, u.z ≠ u'.z)) :
    (normalize_scale w hgt obj tr true).isFinite = true := by
  rcases hvs : obj.vertices with _ | ⟨v0, rest⟩
  · exfalso
    rcases hax with ⟨u, hu, _⟩ | ⟨u, hu, _⟩ | ⟨u, hu, _⟩ <;>
      rw [hvs] at hu <;> exact absurd hu (List.not_mem_nil u)
  · have hbb : calculate_bounding_box obj =
        ⟨.fin (rest.foldl (fun m v => min m v.x) v0.x),
         .fin (rest.foldl (fun m v => max m v.x) v0.x),
         .fin (rest.foldl (fun m v => min m v.y) v0.y),
         .fin (rest.foldl (fun m v => max m v.y) v0.y),
         .fin (rest.foldl (fun m v => min m v.z) v0.z),
         .fin (rest.foldl (fun m v => max m v.z) v0.z)⟩ := by
      rw [calculate_bounding_box, hvs, List.foldl_cons, bboxStep_init,
        bbox_fold_fin]
    have hwr : 0 < w * tr := mul_pos hw htr
    have hhr : 0 < hgt * tr := mul_pos hh htr
    have hwh : 0 < (w + hgt) * tr := mul_pos (by linarith) htr
    simp only [normalize_scale, hbb, sub_fin, mul_fin, if_true]
    apply pyMin3_finite (div_pos_cases _ hwr) (div_pos_cases _ hhr)
      (div_pos_cases _ hwh)
    rcases hax with ⟨u, hu, u', hu', hne⟩ | ⟨u, hu, u', hu', hne⟩ |
        ⟨u, hu, u', hu', hne⟩
    · left
      rw [hvs] at hu hu'
      have h1 := fold_min_le (fun v => v.x) hu
      have h2 := fold_min_le (fun v => v.x) hu'
      have h3 := fold_le_max (fun v => v.x) hu
      have h4 := fold_le_max (fun v => v.x) hu'
      refine div_pos_finite (sub_ne_zero.mpr ?_)
      intro heq
      rcases lt_or_gt_of_ne hne with hlt | hgt2
      · simp only at h1 h2 h3 h4
        linarith
      · simp only at h1 h2 h3 h4
        linarith
    · right
      left
      rw [hvs] at hu hu'
      have h1 := fold_min_le (fun v => v.y) hu
      have h2 := fold_min_le (fun v => v.y) hu'
      have h3 := fold_le_max (fun v => v.y) hu
      have h4 := fold_le_max (fun v => v.y) hu'
      refine div_pos_finite (sub_ne_zero.mpr ?_)
      intro heq
      rcases lt_or_gt_of_ne hne with hlt | hgt2
      · simp only at h1 h2 h3 h4
        linarith
      · simp only at h1 h2 h3 h4
        linarith
    · right
      right
      rw [hvs] at hu hu'
      have h1 := fold_min_le (fun v => v.z) hu
      have h2 := fold_min_le (fun v => v.z) hu'
      have h3 := fold_le_max (fun v => v.z) hu
      have h4 := fold_le_max (fun v => v.z) hu'
      refine mul_ne_zero two_ne_zero ?_ |> div_pos_finite
      refine sub_ne_zero.mpr ?_
      intro heq
      rcases lt_or_gt_of_ne hne with hlt | hgt2
      · simp only at h1 h2 h3 h4
        linarith
      · simp only at h1 h2 h3 h4
        linarith

/-- C2 counterexample: a mesh whose bounding box has zero extent on some
axis (here all three) with surface 800 x 600 yields scale positive
infinity, not a finite scale, and the infinite factors are not excluded
from the minimum. -/
theorem c2_counterexample :
    normalize_scale 800 600 objPoint (1 / 2) true = PFloat.pinf ∧
    PFloat.pinf.isFinite = false := by
  constructor
  · norm_num [normalize_scale, calculate_bounding_box, objPoint, bboxStep,
      pyMin2, pyMax2, pyMin3, PFloat.lt, PFloat.sub, PFloat.add, PFloat.neg,
      PFloat.div, PFloat.mul]
  · rfl

/-- The face loop on a block of well-formed face lines parses them all,
whatever ids they carry. -/
lemma loadFaces_map :
    ∀ (ids : List (ℤ × ℤ × ℤ)) (pre : MeshFile) (acc : List Face),
      loadFaces (pre ++ ids.map faceLine) pre.length ids.length acc =
        (acc ++ ids.map (fun t => ⟨t⟩), false)
  | [], pre, acc => by simp [loadFaces]
  | t :: rest, pre, acc => by
      have hline : readLine (pre ++ (t :: rest).map faceLine) pre.length =
          faceLine t := by
        rw [readLine, List.get?_append_right (le_refl pre.length)]
        simp
      have hp : parseInts3 (faceLine t) = some t := by
        simp [parseInts3, faceLine, fieldToInt]
      have hfile : pre ++ (t :: rest).map faceLine =
          (pre ++ [faceLine t]) ++ rest.map faceLine := by
        simp
      have hlen : pre.length + 1 = (pre ++ [faceLine t]).length := by
        simp
      simp only [List.length_cons, loadFaces, hline, hp]
      rw [hfile, hlen, loadFaces_map rest (pre ++ [faceLine t]) (acc ++ [Face.mk t])]
      simp

/-- C3 (amended): the loader performs no vertex-id validation — a
syntactically well-formed file loads successfully whatever ids its faces
reference — and at first access the renderer indexes the vertex list
with Python semantics: an id vid is an IndexError exactly when vid - 1
is at least the vertex count or below minus the vertex count, while a
nonpositive id within range silently resolves to a vertex counted from
the back of the list; no load-time error is ever produced for an
out-of-range id. -/
theorem c3_no_id_validation :
    (∀ (c : ℚ × ℚ × ℚ) (ids : List (ℤ × ℤ × ℤ)),
      (Object3D.load_from_file ⟨[], []⟩ (idFile c ids)).2 = none ∧
      (Object3D.load_from_file ⟨[], []⟩ (idFile c ids)).1.faces =
        ids.map (fun t => ⟨t⟩)) ∧
    (∀ (vs : List Vertex) (vid : ℤ),
      (pyIndex vs (vid - 1) = none ↔
        (vid - 1 < -(vs.length : ℤ) ∨ (vs.length : ℤ) ≤ vid - 1)) ∧
      (-(vs.length : ℤ) ≤ vid - 1 → vid - 1 < 0 →
        pyIndex vs (vid - 1) = vs.get? ((vs.length : ℤ) + (vid - 1)).toNat)) := by
  constructor
  · intro c ids
    have hload : Object3D.load_from_file ⟨[], []⟩ (idFile c ids) =
        (⟨[⟨pyTrunc 1, c.1, c.2.1, c.2.2⟩], ids.map (fun t => ⟨t⟩)⟩, none) := by
      have hfaces := loadFaces_map ids
        [[Field.intF 1, Field.intF ids.length],
         [Field.intF 1, Field.floatF c.1, Field.floatF c.2.1, Field.floatF c.2.2]]
        []
      simp at hfaces
      simp [Object3D.load_from_file, idFile, readLine, parseInts2, parseInts3,
        parseFloats4, fieldToInt, fieldToFloat, loadVertices, loadFaces, hfaces]
    rw [hload]
    exact ⟨rfl, rfl⟩
  · intro vs vid
    constructor
    · unfold pyIndex
      split_ifs with h1 h2
      · rw [List.get?_eq_none]
        omega
      · rw [List.get?_eq_none]
        omega
      · simp
        omega
    · intro hge hlt
      unfold pyIndex
      rw [if_neg (by omega), if_pos (by omega)]
      congr 1
      omega

/-- Polygon commands contain no oval. -/
lemma filter_isOval_map (l : List FaceDatum) :
    (l.map polyCmdOf).filter isOval = [] := by
  rw [List.filter_eq_nil_iff]
  intro c hc
  rcases List.mem_map.mp hc with ⟨fd, _, hfd⟩
  rw [← hfd]
  simp [polyCmdOf, isOval]

/-- Every vertex-marker command is an oval. -/
lemma mem_ovalCmds_isOval (ops : FloatOps) (w h : ℚ) (st : RState)
    (ns : PFloat) (obj : Object3D) :
    ∀ c ∈ ovalCmds ops w h st ns obj, isOval c = true := by
  intro c hc
  rcases List.mem_filterMap.mp hc with ⟨v, _, hv⟩
  by_cases hnan : ((project_point w h ns (transform_point ops st.rotation_x
      st.rotation_y v.vertex_to_point)).1.isNan = false ∧
      (project_point w h ns (transform_point ops st.rotation_x
      st.rotation_y v.vertex_to_point)).2.1.isNan = false)
  · simp only [if_pos hnan, Option.some.injEq] at hv
    rw [← hv]
    simp [isOval]
  · simp [if_neg hnan] at hv

/-- Every emitted vertex marker passed the NaN guard. -/
lemma mem_ovalCmds_isNan (ops : FloatOps) (w h : ℚ) (st : RState) (ns : PFloat)
    (obj : Object3D) (x y : PFloat)
    (hm : DrawCmd.oval x y ∈ ovalCmds ops w h st ns obj) :
    x.isNan = false ∧ y.isNan = false := by
  rcases List.mem_filterMap.mp hm with ⟨v, _, hv⟩
  by_cases hnan : ((project_point w h ns (transform_point ops st.rotation_x
      st.rotation_y v.vertex_to_point)).1.isNan = false ∧
      (project_point w h ns (transform_point ops st.rotation_x
      st.rotation_y v.vertex_to_point)).2.1.isNan = false)
  · simp only [if_pos hnan, Option.some.injEq, DrawCmd.oval.injEq] at hv
    rcases hv with ⟨hv1, hv2⟩
    rw [← hv1, ← hv2]
    exact hnan
  · simp [if_neg hnan] at hv

/-- C8 (amended): after all face polygons, the render emits one filled
circle per vertex at its rotated and projected position; a vertex is
skipped exactly when one of its projected coordinates is NaN (the
math.isnan guard), so infinite coordinates are drawn, not skipped; in
particular every emitted oval has non-NaN coordinates. -/
theorem c8_vertex_markers (ops : FloatOps) (w h : ℚ) (st st' : RState)
    (obj : Object3D) (out : List DrawCmd)
    (hr : render ops w h st obj = Except.ok (st', out)) :
    out = DrawCmd.clear :: (out.filter isPolygon ++ out.filter isOval) ∧
    out.filter isOval =
      ovalCmds ops w h st (normalize_scale w h obj (1 / 2) true) obj ∧
    ∀ x y : PFloat, DrawCmd.oval x y ∈ out →
      x.isNan = false ∧ y.isNan = false := by
  rcases render_ok hr with ⟨fds, _, _, hout⟩
  have hpoly : out.filter isPolygon = (insSort fds).map polyCmdOf := by
    rw [hout, List.filter_cons_of_neg (by simp [isPolygon]), List.filter_append,
      filter_isPolygon_map, filter_isPolygon_ovals, List.append_nil]
  have hov : out.filter isOval =
      ovalCmds ops w h st (normalize_scale w h obj (1 / 2) true) obj := by
    rw [hout, List.filter_cons_of_neg (by simp [isOval]), List.filter_append,
      filter_isOval_map, List.nil_append,
      List.filter_eq_self.mpr (mem_ovalCmds_isOval ops w h st _ obj)]
  refine ⟨?_, hov, ?_⟩
  · rw [hpoly, hov, hout]
  · intro x y hxy
    rw [hout] at hxy
    rcases List.mem_cons.mp hxy with h1 | h1
    · exact absurd h1 (by simp)
    · rcases List.mem_append.mp h1 with h2 | h2
      · rcases List.mem_map.mp h2 with ⟨fd, _, hfd⟩
        simp [polyCmdOf] at hfd
      · exact mem_ovalCmds_isNan ops w h st _ obj x y h2

/-- C8 counterexample: the one-vertex mesh gets an infinite scale, so the
vertex projects to coordinates plus infinity and minus infinity — not
finite, yet not NaN — and the render draws its marker instead of
skipping it. -/
theorem c8_counterexample :
    render opsId 800 600 st0 objOne =
      Except.ok ({ st0 with scale := PFloat.pinf },
        [DrawCmd.clear, DrawCmd.oval PFloat.pinf PFloat.ninf]) ∧
    PFloat.pinf.isNan = false ∧ PFloat.pinf.isFinite = false ∧
    PFloat.ninf.isNan = false ∧ PFloat.ninf.isFinite = false := by
  refine ⟨?_, rfl, rfl, rfl, rfl⟩
  norm_num [render, mapE, normalize_scale, calculate_bounding_box, objOne, st0,
    bboxStep, pyMin2, pyMax2, pyMin3, PFloat.lt, PFloat.sub, PFloat.add,
    PFloat.neg, PFloat.div, PFloat.mul, PFloat.isNan, insSort, insKey, ovalCmds,
    transform_point, project_point, opsId, Vertex.vertex_to_point,
    List.filterMap_cons, List.filterMap_nil, List.foldl_cons, List.foldl_nil,
    List.map_cons, List.map_nil]

/-- C1 counterexample: loading the Scenario D file (3 vertices declared,
2 supplied) with prevMesh active fails with a LoadError, but the active
object afterwards is the partially loaded fresh mesh holding the two
parsed vertices — not prevMesh. -/
theorem c1_counterexample :
    (app_load_file opsId 800 600 app0 fileShort).2 = some AppErr.loadError ∧
    (app_load_file opsId 800 600 app0 fileShort).1.object ≠ some prevMesh ∧
    (app_load_file opsId 800 600 app0 fileShort).1.object =
      some ⟨[⟨1, 0, 0, 0⟩, ⟨2, 1, 0, 0⟩], []⟩ := by
  have hload : Object3D.load_from_file ⟨[], []⟩ fileShort =
      (⟨[⟨1, 0, 0, 0⟩, ⟨2, 1, 0, 0⟩], []⟩, some LoadErr.parseError) := by
    norm_num [Object3D.load_from_file, loadVertices, loadFaces, readLine,
      parseInts2, parseInts3, parseFloats4, fieldToInt, fieldToFloat, pyTrunc,
      fileShort]
  refine ⟨?_, ?_, ?_⟩ <;>
    norm_num [app_load_file, hload, app0, prevMesh]

/-- C3 counterexample: the fileWrap mesh loads without error although its
face references vertex id 0 (outside [1, 2]), and the subsequent render
also succeeds — Python's negative indexing silently resolves id 0 to the
last vertex, so the invalid reference is neither rejected eagerly at load
time nor lazily at first access. -/
theorem c3_counterexample :
    (Object3D.load_from_file ⟨[], []⟩ fileWrap).2 = none ∧
    (Object3D.load_from_file ⟨[], []⟩ fileWrap).1.faces = [⟨(0, 1, 2)⟩] ∧
    exOk (render opsId 800 600 st0
      (Object3D.load_from_file ⟨[], []⟩ fileWrap).1) = true := by
  have hload : Object3D.load_from_file ⟨[], []⟩ fileWrap =
      (⟨[⟨1, 0, 0, 0⟩, ⟨2, 1, 1, 1⟩], [⟨(0, 1, 2)⟩]⟩, none) := by
    norm_num [Object3D.load_from_file, loadVertices, loadFaces, readLine,
      parseInts2, parseInts3, parseFloats4, fieldToInt, fieldToFloat, pyTrunc,
      fileWrap, Int.toNat_ofNat, show ((2 : ℤ).toNat = 2) from rfl,
      show (1 + 2 = 3) from rfl]
  refine ⟨by rw [hload], by rw [hload], ?_⟩
  rw [hload]
  norm_num [render, mapE, faceDatum, pyIndex, normalize_scale,
    calculate_bounding_box, bboxStep, pyMin2, pyMax2, pyMin3, PFloat.lt,
    PFloat.sub, PFloat.add, PFloat.neg, PFloat.div, PFloat.mul, PFloat.isNan,
    insSort, insKey, ovalCmds, polyCmdOf, cross_normal, normalizeP3,
    calculate_color, transform_point, project_point, opsId, exOk,
    Vertex.vertex_to_point, List.filterMap_cons, List.filterMap_nil,
    List.foldl_cons, List.foldl_nil, List.map_cons, List.map_nil]

/-- Loading fileTri produces the unit triangle without error. -/
lemma loadTri_eq : Object3D.load_from_file ⟨[], []⟩ fileTri = (objTri, none) := by
  norm_num [Object3D.load_from_file, loadVertices, loadFaces, readLine,
    parseInts2, parseInts3, parseFloats4, fieldToInt, fieldToFloat, pyTrunc,
    fileTri, objTri, Int.toNat_one, show ((3 : ℤ).toNat = 3) from rfl,
    show ((1 : ℤ).toNat = 1) from rfl]

/-- The face_data of the triangle render. -/
lemma mapETri_eq :
    mapE (faceDatum opsId 800 600 st0.rotation_x st0.rotation_y
      (normalize_scale 800 600 objTri (1 / 2) true) objTri) objTri.faces =
      Except.ok fdsTri := by
  norm_num [mapE, faceDatum, pyIndex, normalize_scale, calculate_bounding_box,
    bboxStep, pyMin2, pyMax2, pyMin3, PFloat.lt, PFloat.sub, PFloat.add,
    PFloat.neg, PFloat.div, PFloat.mul, cross_normal, normalizeP3,
    calculate_color, pyTrunc, transform_point, project_point, opsId, st0,
    objTri, fdsTri, Vertex.vertex_to_point, List.foldl_cons, List.foldl_nil,
    show ((1 : ℤ).toNat = 1) from rfl, show ((2 : ℤ).toNat = 2) from rfl]

/-- The full triangle render from the initial state. -/
lemma renderTri_eq :
    render opsId 800 600 st0 objTri = Except.ok (stTri, outTri) := by
  norm_num [render, mapE, faceDatum, pyIndex, normalize_scale,
    calculate_bounding_box, bboxStep, pyMin2, pyMax2, pyMin3, PFloat.lt,
    PFloat.sub, PFloat.add, PFloat.neg, PFloat.div, PFloat.mul, PFloat.isNan,
    insSort, insKey, ovalCmds, polyCmdOf, cross_normal, normalizeP3,
    calculate_color, pyTrunc, transform_point, project_point, opsId, st0,
    stTri, objTri, outTri, Vertex.vertex_to_point, List.filterMap_cons,
    List.filterMap_nil, List.foldl_cons, List.foldl_nil, List.map_cons,
    List.map_nil, show ((1 : ℤ).toNat = 1) from rfl,
    show ((2 : ℤ).toNat = 2) from rfl]

/-- The drag from the initial state to (10, 5) over the triangle. -/
lemma dragTri_eq :
    drag opsId 800 600 st0 ev0 objTri = Except.ok (stDrag, outTri) := by
  norm_num [drag, dragState, ev0, render, mapE, faceDatum, pyIndex,
    normalize_scale, calculate_bounding_box, bboxStep, pyMin2, pyMax2, pyMin3,
    PFloat.lt, PFloat.sub, PFloat.add, PFloat.neg, PFloat.div, PFloat.mul,
    PFloat.isNan, insSort, insKey, ovalCmds, polyCmdOf, cross_normal,
    normalizeP3, calculate_color, pyTrunc, transform_point, project_point,
    opsId, st0, stDrag, objTri, outTri, Vertex.vertex_to_point,
    List.filterMap_cons, List.filterMap_nil, List.foldl_cons, List.foldl_nil,
    List.map_cons, List.map_nil, show ((1 : ℤ).toNat = 1) from rfl,
    show ((2 : ℤ).toNat = 2) from rfl]

/-- Witness for C1 at the Scenario D file. -/
theorem c1_witness :
    (app_load_file opsId 800 600 app0 fileShort).1.object =
      some (Object3D.load_from_file ⟨[], []⟩ fileShort).1 ∧
    (Object3D.load_from_file ⟨[], []⟩ fileShort).2.isSome = true :=
  c1_failed_load_installs_partial opsId 800 600 app0 fileShort (by
    norm_num [app_load_file, Object3D.load_from_file, loadVertices, loadFaces,
      readLine, parseInts2, parseInts3, parseFloats4, fieldToInt, fieldToFloat,
      pyTrunc, fileShort, show ((3 : ℤ).toNat = 3) from rfl])

/-- Witness for C2 at the flat Scenario E mesh. -/
theorem c2_witness :
    (normalize_scale 800 600 objFlat (1 / 2) true).isFinite = true :=
  c2_scale_fit_finite 800 600 (1 / 2) objFlat (by norm_num) (by norm_num)
    (by norm_num)
    (Or.inl ⟨⟨1, 0, 0, 5⟩, by simp [objFlat], ⟨2, 1, 2, 5⟩, by simp [objFlat],
      by norm_num⟩)

/-- Witness for C3: id 0 on a one-element vertex list resolves by
Python negative indexing. -/
theorem c3_witness :
    pyIndex [vWit] ((0 : ℤ) - 1) =
      [vWit].get? ((((List.length [vWit] : ℕ) : ℤ) + ((0 : ℤ) - 1)).toNat) :=
  (c3_no_id_validation.2 [vWit] 0).2 (by norm_num) (by norm_num)

/-- Witness for C4 at the triangle render. -/
theorem c4_witness :
    (insSort fdsTri).Pairwise (fun p q => p.1 ≤ q.1) ∧
    outTri.filter isPolygon = (insSort fdsTri).map polyCmdOf :=
  ⟨(c4_depth_sort opsId 800 600 st0 stTri objTri fdsTri outTri mapETri_eq
      renderTri_eq).2.1,
   (c4_depth_sort opsId 800 600 st0 stTri objTri fdsTri outTri mapETri_eq
      renderTri_eq).2.2.2⟩

/-- Witness for C6 at the 81.225-degree oracle. -/
theorem c6_witness :
    calculate_color ops81 0 =
      (0, 0, ⌊(95 : ℚ) + (1 - ops81.arccos_deg |(0 : ℚ)| / 90) * 160⌋) :=
  (c6_color_truncates ops81 0 (by norm_num [ops81]) (by norm_num [ops81])).1

/-- Witness for C7 at the (10, 5) pointer move over the triangle. -/
theorem c7_witness :
    stDrag.rotation_y = st0.rotation_y + ((ev0.x - st0.last_x : ℤ) : ℚ) * (1 / 100) ∧
    stDrag.rotation_x = st0.rotation_x + ((ev0.y - st0.last_y : ℤ) : ℚ) * (1 / 100) ∧
    stDrag.last_x = ev0.x ∧
    stDrag.last_y = ev0.y ∧
    render opsId 800 600 (dragState st0 ev0) objTri = Except.ok (stDrag, outTri) ∧
    outTri.countP isClear = 1 :=
  c7_drag_update opsId 800 600 st0 stDrag ev0 objTri outTri dragTri_eq

/-- Witness for C8 at the triangle render. -/
theorem c8_witness :
    outTri = DrawCmd.clear :: (outTri.filter isPolygon ++ outTri.filter isOval) ∧
    outTri.filter isOval =
      ovalCmds opsId 800 600 st0 (normalize_scale 800 600 objTri (1 / 2) true)
        objTri :=
  ⟨(c8_vertex_markers opsId 800 600 st0 stTri objTri outTri renderTri_eq).1,
   (c8_vertex_markers opsId 800 600 st0 stTri objTri outTri renderTri_eq).2.1⟩

/-- Witness for C9: loading fileTri over accumulated rotation state. -/
theorem c9_witness :
    (app_load_file opsId 800 600 app9 fileTri).1.renderer.rotation_x =
      app9.renderer.rotation_x ∧
    (app_load_file opsId 800 600 app9 fileTri).1.renderer.rotation_y =
      app9.renderer.rotation_y ∧
    (app_load_file opsId 800 600 app9 fileTri).1.renderer.last_x =
      app9.renderer.last_x ∧
    (app_load_file opsId 800 600 app9 fileTri).1.renderer.last_y =
      app9.renderer.last_y ∧
    (app_load_file opsId 800 600 app9 fileTri).1.renderer.scale =
      normalize_scale 800 600 objTri (1 / 2) true ∧
    (app_load_file opsId 800 600 app9 fileTri).1.object = some objTri :=
  c9_load_keeps_rotation opsId 800 600 app9 fileTri objTri loadTri_eq

/-- Witness for C10: loading fileTri into an already-populated object. -/
theorem c10_witness :
    (Object3D.load_from_file prevMesh fileTri).1.vertices =
      prevMesh.vertices ++ (Object3D.load_from_file ⟨[], []⟩ fileTri).1.vertices :=
  (c10_load_accumulates prevMesh fileTri (by
    rw [(load_from_file_append prevMesh fileTri).2.2, loadTri_eq])).1

end ObjViewer
